import Mathlib

/-! Shallow embedding of src/app.py, a minimal FastAPI user-account service:
password hashing, JWT issue/decode, and CRUD over one `users` table. -/

namespace FastAPIApp

/-- Calendar date, the `tanggal_lahir` column (`Date` in SQLAlchemy). -/
structure Date where
  year : Nat
  month : Nat
  day : Nat
  deriving DecidableEq, Repr

/-- Modelled from the spec: the bcrypt digest behind passlib's CryptContext is an
external dependency (not in src/); spec 4.1 describes it as a salted one-way
transform. The digest is an opaque mixing of the plaintext and the salt. -/
def bcryptDigest (plaintext : String) (salt : Nat) : List Nat :=
  plaintext.toList.map (fun c => (c.toNat * 131 + salt * 7 + 13) % 4096)

/-- A password hash as stored: the salt the library chose plus the digest. -/
structure Hashed where
  salt : Nat
  digest : List Nat
  deriving DecidableEq, Repr

/-- src/app.py get_password_hash: `pwd_context.hash(password)`. The salt is drawn
by the library at call time; it is an explicit argument here. -/
def get_password_hash (password : String) (salt : Nat) : Hashed :=
  { salt := salt, digest := bcryptDigest password salt }

/-- src/app.py verify_password: `pwd_context.verify(plain, hashed)` recomputes the
digest under the stored salt and compares. Total: returns a Bool, never raises. -/
def verify_password (plain_password : String) (hashed_password : Hashed) : Bool :=
  bcryptDigest plain_password hashed_password.salt == hashed_password.digest

/-- A JSON value a JWT claim can hold in this app: a string or null. -/
inductive JwtVal where
  | str (s : String)
  | null
  deriving DecidableEq, Repr

/-- JWT payload as this app uses it: an optional `sub` claim (absent, null, or a
string) and an optional `exp` claim (POSIX seconds). -/
structure Claims where
  sub : Option JwtVal
  exp : Option Int
  deriving DecidableEq, Repr

/-- Modelled from the spec: a token from the external jose library records the
payload and the key and algorithm that signed it (spec 4.2: signed,
self-contained). -/
structure Token where
  claims : Claims
  key : String
  alg : String
  deriving DecidableEq, Repr

/-- Errors jose's `jwt.decode` raises: JWTError when the signature does not
verify, ExpiredSignatureError (a JWTError subclass) when `exp` has passed. -/
inductive JwtError where
  | invalidSignature
  | expiredSignature
  deriving DecidableEq, Repr

/-- Modelled from the spec: jose `jwt.encode(payload, key, algorithm)`. -/
def jwtEncode (claims : Claims) (key : String) (alg : String) : Token :=
  { claims := claims, key := key, alg := alg }

/-- Modelled from the spec: jose `jwt.decode(token, key, algorithms)` at time
`now`. It verifies the signature (key and algorithm must match), then the `exp`
claim when present (ExpiredSignatureError when `exp < now`), then returns the
payload. -/
def jwtDecode (token : Token) (key : String) (algs : List String) (now : Int) :
    Except JwtError Claims :=
  if token.key ≠ key ∨ token.alg ∉ algs then
    Except.error JwtError.invalidSignature
  else
    match token.claims.exp with
    | some e => if e < now then Except.error JwtError.expiredSignature else Except.ok token.claims
    | none => Except.ok token.claims

/-- The expiration window of src/app.py line 46: `timedelta(minutes=30)`, in
POSIX seconds. -/
def ACCESS_EXPIRE_SECONDS : Int := 30 * 60

/-- src/app.py create_access_token: copies `data`, sets its `exp` claim to
`datetime.utcnow() + timedelta(minutes=30)` (here `now + 1800` seconds), and
signs with the fixed secret key and HS256. -/
def create_access_token (data : Claims) (now : Int) : Token :=
  let to_encode : Claims := { data with exp := some (now + ACCESS_EXPIRE_SECONDS) }
  jwtEncode to_encode "secret-key" "HS256"

/-- How src/app.py verify_token can fail: a propagated jose error (line 57 does
not catch JWTError), the KeyError from `credentials["sub"]` when the payload has
no `sub` key, or the supplied credentials_exception (raised only when the `sub`
claim is present with value None). -/
inductive VerifyErr where
  | jwtError (e : JwtError)
  | keyError
  | credentialsException
  deriving DecidableEq, Repr

/-- src/app.py verify_token: decodes with the same secret key and algorithm,
then reads `credentials["sub"]` — a KeyError when the key is absent — and raises
credentials_exception when the value is None, else returns the username. -/
def verify_token (token : Token) (now : Int) : Except VerifyErr String :=
  match jwtDecode token "secret-key" ["HS256"] now with
  | Except.error e => Except.error (VerifyErr.jwtError e)
  | Except.ok credentials =>
    match credentials.sub with
    | none => Except.error VerifyErr.keyError
    | some JwtVal.null => Except.error VerifyErr.credentialsException
    | some (JwtVal.str username) => Except.ok username

/-- src/app.py class User: a persisted row of the `users` table. `id` is the
integer primary key, `username` carries a unique index (line 81). -/
structure User where
  id : Nat
  username : String
  hashed_password : Hashed
  nama : String
  jenis_kelamin : Option Int
  tanggal_lahir : Option Date
  deriving DecidableEq, Repr

/-- The `users` table: its rows plus the next primary key the store assigns
(SQLite starts at 1). -/
structure Store where
  rows : List User
  nextId : Nat
  deriving DecidableEq, Repr

/-- src/app.py get_user: `db.query(User).filter(User.username == username).first()`. -/
def get_user (st : Store) (username : String) : Option User :=
  st.rows.find? (fun u => u.username == username)

/-- The by-id lookup `db.query(User).filter(User.id == user_id).first()` used by
the get, delete and update endpoints. -/
def getUserById (st : Store) (user_id : Nat) : Option User :=
  st.rows.find? (fun u => u.id == user_id)

/-- A fastapi HTTPException as the endpoints raise it. -/
structure HTTPException where
  status_code : Nat
  detail : String
  headers : List (String × String)
  deriving DecidableEq, Repr

/-- Lifecycle events of the one database session an endpoint touches:
`SessionLocal()` opens it, `db.close()` (or the finally in get_db) closes it. -/
inductive SessionEvent where
  | opened
  | closed
  deriving DecidableEq, Repr

/-- src/app.py class UserLogin: the login request body. -/
structure UserLogin where
  username : String
  password : String
  deriving DecidableEq, Repr

/-- The body returned by a successful login. -/
structure LoginResponse where
  access_token : Token
  token_type : String
  deriving DecidableEq, Repr

/-- src/app.py login line 109: `db_user is None or not verify_password(...)`,
the one condition guarding the one 401 raise. -/
def loginRejects (st : Store) (user : UserLogin) : Bool :=
  match get_user st user.username with
  | none => true
  | some db_user => ! verify_password user.password db_user.hashed_password

/-- src/app.py login: looks the username up, raises a single 401 HTTPException
when the user is missing or the password does not verify, else issues a token
for the username. Its session comes from Depends(get_db): opened before the
body runs, closed by get_db's finally on every exit path. -/
def login (st : Store) (user : UserLogin) (now : Int) :
    (Except HTTPException LoginResponse) × List SessionEvent :=
  let result : Except HTTPException LoginResponse :=
    if loginRejects st user then
      Except.error { status_code := 401, detail := "Invalid username or password",
                     headers := [("WWW-Authenticate", "Bearer")] }
    else
      Except.ok { access_token := create_access_token
                    { sub := some (JwtVal.str user.username), exp := none } now,
                  token_type := "bearer" }
  (result, [SessionEvent.opened, SessionEvent.closed])

/-- src/app.py class InputUser: the create/update request body. In pydantic v1 a
field typed Optional defaults to None, so an omitted jenis_kelamin or
tanggal_lahir arrives as none. -/
structure InputUser where
  username : String
  nama : String
  jenis_kelamin : Option Int
  tanggal_lahir : Option Date
  password : String
  deriving DecidableEq, Repr

/-- The IntegrityError sqlalchemy raises when a commit violates a constraint. -/
inductive DbError where
  | integrityError
  deriving DecidableEq, Repr

/-- Modelled from the spec: committing `db.add` of a new row into the `users`
table, whose username column carries a unique constraint (src/app.py line 81).
An insert whose username an existing row already holds fails with
IntegrityError and persists nothing; otherwise the store assigns the next id
and appends the row. -/
def commitInsert (st : Store) (username : String) (hashed_password : Hashed)
    (nama : String) (jenis_kelamin : Option Int) (tanggal_lahir : Option Date) :
    Except DbError (User × Store) :=
  if (get_user st username).isSome then
    Except.error DbError.integrityError
  else
    let row : User := { id := st.nextId, username := username,
                        hashed_password := hashed_password, nama := nama,
                        jenis_kelamin := jenis_kelamin, tanggal_lahir := tanggal_lahir }
    Except.ok (row, { rows := st.rows ++ [row], nextId := st.nextId + 1 })

/-- src/app.py create_user: hashes the password, builds the row, `db.add` and
`db.commit`. On success it refreshes (the assigned id is now on the row),
closes the session (line 145) and returns the row — get_db's finally closes the
already-closed session once more, a no-op. When the commit raises
IntegrityError the explicit close is skipped but get_db's finally still closes
the session, and nothing was persisted. -/
def create_user (st : Store) (input_user : InputUser) (salt : Nat) :
    (Except DbError User) × Store × List SessionEvent :=
  let hashed_password := get_password_hash input_user.password salt
  match commitInsert st input_user.username hashed_password input_user.nama
      input_user.jenis_kelamin input_user.tanggal_lahir with
  | Except.error e =>
      (Except.error e, st, [SessionEvent.opened, SessionEvent.closed])
  | Except.ok (db_user, st') =>
      (Except.ok db_user, st',
       [SessionEvent.opened, SessionEvent.closed, SessionEvent.closed])

/-- src/app.py daftar_user: opens its own session, reads all rows, closes. -/
def daftar_user (st : Store) : List User × List SessionEvent :=
  (st.rows, [SessionEvent.opened, SessionEvent.closed])

/-- src/app.py get_users: opens its own session, looks the id up, closes (line
161, before the check), then 404s when the row is absent or returns it. -/
def get_users (st : Store) (user_id : Nat) :
    (Except HTTPException User) × List SessionEvent :=
  match getUserById st user_id with
  | none =>
      (Except.error { status_code := 404, detail := "User tidak ditemukan.", headers := [] },
       [SessionEvent.opened, SessionEvent.closed])
  | some user =>
      (Except.ok user, [SessionEvent.opened, SessionEvent.closed])

/-- src/app.py delete_user: opens its own session, looks the id up; when absent
it closes (line 172) and 404s; when present it deletes the row, commits and
closes. -/
def delete_user (st : Store) (user_id : Nat) :
    (Except HTTPException String) × Store × List SessionEvent :=
  match getUserById st user_id with
  | none =>
      (Except.error { status_code := 404, detail := "User tidak ditemukan.", headers := [] },
       st, [SessionEvent.opened, SessionEvent.closed])
  | some _user =>
      (Except.ok ("User dengan ID " ++ toString user_id ++ " berhasil dihapus."),
       { rows := st.rows.filter (fun u => ! (u.id == user_id)), nextId := st.nextId },
       [SessionEvent.opened, SessionEvent.closed])

/-- src/app.py update_user: opens its own session, looks the id up; when absent
it closes (line 185) and 404s; when present it assigns nama, jenis_kelamin and
tanggal_lahir from the body — and nothing else — commits and closes. The body's
username and password are accepted but never read. -/
def update_user (st : Store) (user_id : Nat) (input_user : InputUser) :
    (Except HTTPException String) × Store × List SessionEvent :=
  match getUserById st user_id with
  | none =>
      (Except.error { status_code := 404, detail := "User tidak ditemukan.", headers := [] },
       st, [SessionEvent.opened, SessionEvent.closed])
  | some existing_user =>
      let updated : User :=
        { existing_user with
          nama := input_user.nama,
          jenis_kelamin := input_user.jenis_kelamin,
          tanggal_lahir := input_user.tanggal_lahir }
      (Except.ok ("User dengan ID " ++ toString user_id ++ " berhasil diupdate."),
       { rows := st.rows.map (fun u => if u.id == user_id then updated else u),
         nextId := st.nextId },
       [SessionEvent.opened, SessionEvent.closed])

/-- No two rows of the table share a username (the unique index of line 81). -/
def uniqueUsernames (st : Store) : Prop :=
  st.rows.Pairwise (fun a b => a.username ≠ b.username)

/-- No two rows of the table share an id (the primary key of line 80). -/
def uniqueIds (st : Store) : Prop :=
  st.rows.Pairwise (fun a b => a.id ≠ b.id)

/-- Every stored id is below the id the store will assign next. -/
def idsBelowNext (st : Store) : Prop :=
  ∀ u ∈ st.rows, u.id < st.nextId

/-- The store's standing invariant: unique usernames, unique primary keys, and
fresh ids ahead of all stored ones. -/
def Invariant (st : Store) : Prop :=
  uniqueUsernames st ∧ uniqueIds st ∧ idsBelowNext st

instance (st : Store) : Decidable (uniqueUsernames st) := by
  unfold uniqueUsernames; infer_instance

instance (st : Store) : Decidable (uniqueIds st) := by
  unfold uniqueIds; infer_instance

instance (st : Store) : Decidable (idsBelowNext st) := by
  unfold idsBelowNext; infer_instance

instance (st : Store) : Decidable (Invariant st) := by
  unfold Invariant; infer_instance

/-- The states the service can reach: the empty table, then the image of each
mutating endpoint. -/
inductive Reachable : Store → Prop where
  | init : Reachable { rows := [], nextId := 1 }
  | create (st : Store) (iu : InputUser) (salt : Nat) (h : Reachable st) :
      Reachable (create_user st iu salt).2.1
  | delete (st : Store) (uid : Nat) (h : Reachable st) :
      Reachable (delete_user st uid).2.1
  | update (st : Store) (uid : Nat) (iu : InputUser) (h : Reachable st) :
      Reachable (update_user st uid iu).2.1

/-- Two rows of an id-unique list that carry the same id are the same row. -/
theorem eq_of_mem_of_id_eq {l : List User}
    (hp : l.Pairwise (fun a b => a.id ≠ b.id)) {u v : User}
    (hu : u ∈ l) (hv : v ∈ l) (hid : u.id = v.id) : u = v := by
  induction l with
  | nil => cases hu
  | cons a t ih =>
    rcases List.pairwise_cons.mp hp with ⟨ha, ht⟩
    rcases List.mem_cons.mp hu with rfl | hu'
    · rcases List.mem_cons.mp hv with rfl | hv'
      · rfl
      · exact absurd hid (ha v hv')
    · rcases List.mem_cons.mp hv with rfl | hv'
      · exact absurd hid.symm (ha u hu')
      · exact ih ht hu' hv'

/-- The row a duplicate-free create_user call persists. -/
def newRow (st : Store) (iu : InputUser) (salt : Nat) : User :=
  { id := st.nextId, username := iu.username,
    hashed_password := get_password_hash iu.password salt, nama := iu.nama,
    jenis_kelamin := iu.jenis_kelamin, tanggal_lahir := iu.tanggal_lahir }

/-- The mutation update_user applies to the targeted row: nama, jenis_kelamin
and tanggal_lahir come from the body; id, username and hashed_password stay. -/
def mutateRecord (iu : InputUser) (u : User) : User :=
  { u with nama := iu.nama, jenis_kelamin := iu.jenis_kelamin,
           tanggal_lahir := iu.tanggal_lahir }

theorem getUserById_mem {st : Store} {uid : Nat} {u : User}
    (hg : getUserById st uid = some u) : u ∈ st.rows :=
  List.mem_of_find?_eq_some hg

theorem getUserById_id {st : Store} {uid : Nat} {u : User}
    (hg : getUserById st uid = some u) : u.id = uid := by
  unfold getUserById at hg
  have h := List.find?_some hg
  simpa using h

theorem getUserById_none {st : Store} {uid : Nat}
    (hg : getUserById st uid = none) : ∀ u ∈ st.rows, u.id ≠ uid := by
  unfold getUserById at hg
  intro u hu
  have h := List.find?_eq_none.mp hg u hu
  simpa using h

theorem get_user_none {st : Store} {username : String}
    (hg : get_user st username = none) : ∀ u ∈ st.rows, u.username ≠ username := by
  unfold get_user at hg
  intro u hu
  have h := List.find?_eq_none.mp hg u hu
  simpa using h

/-- What create_user does when the username is already stored. -/
theorem create_user_dup {st : Store} {iu : InputUser} {salt : Nat} {u : User}
    (hg : get_user st iu.username = some u) :
    create_user st iu salt =
      (Except.error DbError.integrityError, st,
       [SessionEvent.opened, SessionEvent.closed]) := by
  simp [create_user, commitInsert, hg]

/-- What create_user does when the username is new. -/
theorem create_user_new {st : Store} {iu : InputUser} {salt : Nat}
    (hg : get_user st iu.username = none) :
    create_user st iu salt =
      (Except.ok (newRow st iu salt),
       { rows := st.rows ++ [newRow st iu salt], nextId := st.nextId + 1 },
       [SessionEvent.opened, SessionEvent.closed, SessionEvent.closed]) := by
  simp [create_user, commitInsert, newRow, hg]

/-- What update_user does when the id is absent. -/
theorem update_user_missing {st : Store} {uid : Nat} {iu : InputUser}
    (hg : getUserById st uid = none) :
    update_user st uid iu =
      (Except.error { status_code := 404, detail := "User tidak ditemukan.", headers := [] },
       st, [SessionEvent.opened, SessionEvent.closed]) := by
  simp [update_user, hg]

/-- What update_user does when the id is present. -/
theorem update_user_found {st : Store} {uid : Nat} {iu : InputUser} {eu : User}
    (hg : getUserById st uid = some eu) :
    update_user st uid iu =
      (Except.ok ("User dengan ID " ++ toString uid ++ " berhasil diupdate."),
       { rows := st.rows.map (fun u => if u.id == uid then mutateRecord iu eu else u),
         nextId := st.nextId },
       [SessionEvent.opened, SessionEvent.closed]) := by
  simp [update_user, mutateRecord, hg]

/-- Under the store invariant the updated table is a pointwise map: the row
carrying the targeted id is mutated in place, every other row is itself. -/
theorem update_user_rows_eq (st : Store) (uid : Nat) (iu : InputUser)
    (hinv : Invariant st) :
    (update_user st uid iu).2.1.rows =
      st.rows.map (fun u => if u.id == uid then mutateRecord iu u else u) := by
  cases hg : getUserById st uid with
  | none =>
    rw [update_user_missing hg]
    have habs : ∀ a ∈ st.rows,
        (fun u => if u.id == uid then mutateRecord iu u else u) a = id a := by
      intro a ha
      have := getUserById_none hg a ha
      simp [this]
    rw [List.map_congr_left habs, List.map_id]
  | some eu =>
    rw [update_user_found hg]
    apply List.map_congr_left
    intro a ha
    by_cases he : (a.id == uid) = true
    · have h1 : a.id = uid := by simpa using he
      have haeu : a = eu :=
        eq_of_mem_of_id_eq hinv.2.1 ha (getUserById_mem hg)
          (by rw [h1, getUserById_id hg])
      simp [he, haeu]
    · simp [he]

/-- update_user never touches the id counter. -/
theorem update_user_nextId_eq (st : Store) (uid : Nat) (iu : InputUser) :
    (update_user st uid iu).2.1.nextId = st.nextId := by
  cases hg : getUserById st uid with
  | none => rw [update_user_missing hg]
  | some eu => rw [update_user_found hg]

theorem mutateRecord_id (iu : InputUser) (u : User) : (mutateRecord iu u).id = u.id := rfl

theorem mutateRecord_username (iu : InputUser) (u : User) :
    (mutateRecord iu u).username = u.username := rfl

theorem mutateRecord_hashed (iu : InputUser) (u : User) :
    (mutateRecord iu u).hashed_password = u.hashed_password := rfl

/-- create_user preserves the store invariant. -/
theorem invariant_create (st : Store) (iu : InputUser) (salt : Nat)
    (h : Invariant st) : Invariant (create_user st iu salt).2.1 := by
  obtain ⟨hun, hid, hlt⟩ := h
  cases hg : get_user st iu.username with
  | some u => rw [create_user_dup hg]; exact ⟨hun, hid, hlt⟩
  | none =>
    rw [create_user_new hg]
    have hfresh := get_user_none hg
    refine ⟨?_, ?_, ?_⟩
    · unfold uniqueUsernames at *
      refine List.pairwise_append.mpr ⟨hun, List.pairwise_singleton _ _, ?_⟩
      intro a ha b hb
      simp only [List.mem_singleton] at hb
      subst hb
      exact hfresh a ha
    · unfold uniqueIds at *
      refine List.pairwise_append.mpr ⟨hid, List.pairwise_singleton _ _, ?_⟩
      intro a ha b hb
      simp only [List.mem_singleton] at hb
      subst hb
      exact Nat.ne_of_lt (hlt a ha)
    · unfold idsBelowNext at *
      intro u hu
      rcases List.mem_append.mp hu with h1 | h2
      · exact Nat.lt_succ_of_lt (hlt u h1)
      · simp only [List.mem_singleton] at h2
        subst h2
        exact Nat.lt_succ_self _

/-- delete_user preserves the store invariant. -/
theorem invariant_delete (st : Store) (uid : Nat)
    (h : Invariant st) : Invariant (delete_user st uid).2.1 := by
  obtain ⟨hun, hid, hlt⟩ := h
  unfold delete_user
  cases hg : getUserById st uid with
  | none => exact ⟨hun, hid, hlt⟩
  | some u =>
    refine ⟨?_, ?_, ?_⟩
    · exact List.Pairwise.sublist (List.filter_sublist _) hun
    · exact List.Pairwise.sublist (List.filter_sublist _) hid
    · intro v hv
      exact hlt v (List.mem_of_mem_filter hv)

/-- update_user preserves the store invariant: the mutated row keeps its id and
its username, every other row is untouched. -/
theorem invariant_update (st : Store) (uid : Nat) (iu : InputUser)
    (h : Invariant st) : Invariant (update_user st uid iu).2.1 := by
  have hrows := update_user_rows_eq st uid iu h
  have hnext := update_user_nextId_eq st uid iu
  obtain ⟨hun, hid, hlt⟩ := h
  have husername : ∀ u : User,
      ((fun u => if u.id == uid then mutateRecord iu u else u) u).username = u.username := by
    intro u
    by_cases he : (u.id == uid) = true <;> simp [he, mutateRecord_username]
  have hidpt : ∀ u : User,
      ((fun u => if u.id == uid then mutateRecord iu u else u) u).id = u.id := by
    intro u
    by_cases he : (u.id == uid) = true <;> simp [he, mutateRecord_id]
  refine ⟨?_, ?_, ?_⟩
  · unfold uniqueUsernames at *
    rw [hrows, List.pairwise_map]
    refine hun.imp ?_
    intro a b hne
    rw [husername a, husername b]
    exact hne
  · unfold uniqueIds at *
    rw [hrows, List.pairwise_map]
    refine hid.imp ?_
    intro a b hne
    rw [hidpt a, hidpt b]
    exact hne
  · unfold idsBelowNext at *
    rw [hrows, hnext]
    intro v hv
    rcases List.mem_map.mp hv with ⟨u, hu, rfl⟩
    rw [hidpt u]
    exact hlt u hu

/-- Every state the service can reach satisfies the store invariant. -/
theorem reachable_invariant (st : Store) (h : Reachable st) : Invariant st := by
  induction h with
  | init => exact ⟨List.Pairwise.nil, List.Pairwise.nil, by intro u hu; cases hu⟩
  | create st iu salt _ ih => exact invariant_create st iu salt ih
  | delete st uid _ ih => exact invariant_delete st uid ih
  | update st uid iu _ ih => exact invariant_update st uid iu ih

/-- C1: login fails with Unauthorized (HTTP 401) exactly when the username is
not in the store or the password does not verify against the stored hash, and
the error is the same single 401 HTTPException in both cases (src/app.py lines
109-114 guard one raise with one condition). -/
theorem login_unauthorized_iff (st : Store) (user : UserLogin) (now : Int) :
    ((∃ e, (login st user now).1 = Except.error e) ↔
      get_user st user.username = none ∨
        ∃ db_user, get_user st user.username = some db_user ∧
          verify_password user.password db_user.hashed_password = false) ∧
    ∀ e, (login st user now).1 = Except.error e →
      e = { status_code := 401, detail := "Invalid username or password",
            headers := [("WWW-Authenticate", "Bearer")] } := by
  unfold login loginRejects
  cases hg : get_user st user.username with
  | none => simp [hg]
  | some db_user =>
    by_cases hv : verify_password user.password db_user.hashed_password = true
    · simp [hg, hv]
    · rw [Bool.not_eq_true] at hv
      simp [hg, hv]

/-- C2: a token issued for subject u by create_access_token, decoded at once by
verify_token under the same secret key and algorithm, succeeds and returns u. -/
theorem issue_then_decode (u : String) (now : Int) :
    verify_token
        (create_access_token { sub := some (JwtVal.str u), exp := none } now) now =
      Except.ok u := by
  unfold verify_token create_access_token jwtEncode jwtDecode ACCESS_EXPIRE_SECONDS
  have hnum : ¬ (now + 30 * 60 < now) := by omega
  simp [hnum]

/-- C3: every token the issue operation produces carries exp = issuance time
plus 30 minutes (1800 seconds), and decoding after that moment fails with the
expired-token JWTError (jose's ExpiredSignatureError, a JWTError subclass). -/
theorem token_expiry (data : Claims) (now t : Int)
    (h : now + ACCESS_EXPIRE_SECONDS < t) :
    (create_access_token data now).claims.exp = some (now + ACCESS_EXPIRE_SECONDS) ∧
    ACCESS_EXPIRE_SECONDS = 30 * 60 ∧
    verify_token (create_access_token data now) t =
      Except.error (VerifyErr.jwtError JwtError.expiredSignature) := by
  refine ⟨rfl, rfl, ?_⟩
  unfold verify_token create_access_token jwtEncode jwtDecode
  simp [h]

/-- Witness for C3 at subject-free claims, issuance time 0, decode time 2000. -/
theorem token_expiry_witness :
    (create_access_token { sub := none, exp := none } 0).claims.exp =
      some (0 + ACCESS_EXPIRE_SECONDS) ∧
    ACCESS_EXPIRE_SECONDS = 30 * 60 ∧
    verify_token (create_access_token { sub := none, exp := none } 0) 2000 =
      Except.error (VerifyErr.jwtError JwtError.expiredSignature) :=
  token_expiry { sub := none, exp := none } 0 2000 (by decide)

/-- C4, where the code diverges from the spec: a well-signed unexpired token
whose payload has no sub claim makes verify_token fail with the KeyError of
`credentials["sub"]` (src/app.py line 58), not with the supplied
credentials_exception — that exception is raised only when the sub claim is
present with value null. -/
theorem verify_token_missing_sub_keyerror :
    verify_token (jwtEncode { sub := none, exp := none } "secret-key" "HS256") 0 =
      Except.error VerifyErr.keyError ∧
    verify_token (jwtEncode { sub := some JwtVal.null, exp := none } "secret-key" "HS256") 0 =
      Except.error VerifyErr.credentialsException := by
  constructor <;> rfl

/-- C5: verify(p, hash(p)) is true for every password and salt, and verify is a
total Boolean check: on any plaintext/hash pair it returns true or false, it
never raises. -/
theorem hash_verify_roundtrip (p p2 : String) (salt : Nat) (h2 : Hashed) :
    verify_password p (get_password_hash p salt) = true ∧
    (verify_password p2 h2 = true ∨ verify_password p2 h2 = false) := by
  constructor
  · simp [verify_password, get_password_hash]
  · exact Bool.eq_false_or_eq_true _

/-- A concrete create/update request body used to instantiate the theorems. -/
def aliceInput : InputUser :=
  { username := "alice", nama := "Alice", jenis_kelamin := some 1,
    tanggal_lahir := none, password := "pw123" }

/-- A concrete stored row used to instantiate the theorems. -/
def bobRow : User :=
  { id := 1, username := "bob", hashed_password := { salt := 3, digest := [7] },
    nama := "Bob", jenis_kelamin := some 1,
    tanggal_lahir := some { year := 1990, month := 1, day := 2 } }

/-- A concrete one-row store used to instantiate the theorems. -/
def oneUserStore : Store := { rows := [bobRow], nextId := 2 }

/-- A concrete update body whose optional fields are omitted (pydantic v1 fills
none for an omitted Optional field). -/
def clearingInput : InputUser :=
  { username := "bob", nama := "Bobby", jenis_kelamin := none,
    tanggal_lahir := none, password := "pw123" }

/-- C6: every reachable store keeps usernames unique, and a create_user call
whose username is already stored fails with IntegrityError — the insert is
rejected and the store is exactly what it was, never an overwrite. -/
theorem username_unique_invariant (st : Store) (h : Reachable st)
    (iu : InputUser) (salt : Nat) :
    uniqueUsernames st ∧
    (∀ u, get_user st iu.username = some u →
      (create_user st iu salt).1 = Except.error DbError.integrityError ∧
      (create_user st iu salt).2.1 = st) := by
  refine ⟨(reachable_invariant st h).1, ?_⟩
  intro u hu
  rw [create_user_dup hu]
  exact ⟨rfl, rfl⟩

/-- Witness for C6: create alice into the empty store, then creating alice
again fails and changes nothing. -/
theorem username_unique_invariant_witness :
    uniqueUsernames (create_user { rows := [], nextId := 1 } aliceInput 0).2.1 ∧
    (∀ u, get_user (create_user { rows := [], nextId := 1 } aliceInput 0).2.1
        aliceInput.username = some u →
      (create_user (create_user { rows := [], nextId := 1 } aliceInput 0).2.1
        aliceInput 0).1 = Except.error DbError.integrityError ∧
      (create_user (create_user { rows := [], nextId := 1 } aliceInput 0).2.1
        aliceInput 0).2.1 =
        (create_user { rows := [], nextId := 1 } aliceInput 0).2.1) :=
  username_unique_invariant _ (Reachable.create _ aliceInput 0 Reachable.init)
    aliceInput 0

/-- C7: update_user rewrites only the targeted row's nama, jenis_kelamin and
tanggal_lahir; that row's id, username and hashed_password survive, the body's
username and password are ignored for mutation, and every other row and the id
counter are untouched. -/
theorem update_user_frame (st : Store) (user_id : Nat) (iu : InputUser)
    (hinv : Invariant st) :
    (update_user st user_id iu).2.1.rows =
      st.rows.map (fun u => if u.id == user_id then mutateRecord iu u else u) ∧
    (update_user st user_id iu).2.1.nextId = st.nextId ∧
    ∀ u : User,
      (mutateRecord iu u).id = u.id ∧
      (mutateRecord iu u).username = u.username ∧
      (mutateRecord iu u).hashed_password = u.hashed_password ∧
      (mutateRecord iu u).nama = iu.nama ∧
      (mutateRecord iu u).jenis_kelamin = iu.jenis_kelamin ∧
      (mutateRecord iu u).tanggal_lahir = iu.tanggal_lahir :=
  ⟨update_user_rows_eq st user_id iu hinv, update_user_nextId_eq st user_id iu,
   fun _ => ⟨rfl, rfl, rfl, rfl, rfl, rfl⟩⟩

/-- Witness for C7 on a concrete one-row store. -/
theorem update_user_frame_witness :
    (update_user oneUserStore 1 aliceInput).2.1.rows =
      oneUserStore.rows.map
        (fun u => if u.id == 1 then mutateRecord aliceInput u else u) ∧
    (update_user oneUserStore 1 aliceInput).2.1.nextId = oneUserStore.nextId ∧
    ∀ u : User,
      (mutateRecord aliceInput u).id = u.id ∧
      (mutateRecord aliceInput u).username = u.username ∧
      (mutateRecord aliceInput u).hashed_password = u.hashed_password ∧
      (mutateRecord aliceInput u).nama = aliceInput.nama ∧
      (mutateRecord aliceInput u).jenis_kelamin = aliceInput.jenis_kelamin ∧
      (mutateRecord aliceInput u).tanggal_lahir = aliceInput.tanggal_lahir :=
  update_user_frame oneUserStore 1 aliceInput (by decide)

/-- C8: get, delete and update on an id the store does not hold all fail with
the 404 HTTPException, and the failing delete and update leave the store
exactly as it was. -/
theorem not_found_404 (st : Store) (user_id : Nat) (iu : InputUser)
    (h : getUserById st user_id = none) :
    (get_users st user_id).1 =
      Except.error { status_code := 404, detail := "User tidak ditemukan.",
                     headers := [] } ∧
    (delete_user st user_id).1 =
      Except.error { status_code := 404, detail := "User tidak ditemukan.",
                     headers := [] } ∧
    (delete_user st user_id).2.1 = st ∧
    (update_user st user_id iu).1 =
      Except.error { status_code := 404, detail := "User tidak ditemukan.",
                     headers := [] } ∧
    (update_user st user_id iu).2.1 = st := by
  refine ⟨?_, ?_, ?_, ?_, ?_⟩ <;> simp [get_users, delete_user, update_user, h]

/-- Witness for C8 on the empty store. -/
theorem not_found_404_witness :
    (get_users { rows := [], nextId := 1 } 1).1 =
      Except.error { status_code := 404, detail := "User tidak ditemukan.",
                     headers := [] } ∧
    (delete_user { rows := [], nextId := 1 } 1).1 =
      Except.error { status_code := 404, detail := "User tidak ditemukan.",
                     headers := [] } ∧
    (delete_user { rows := [], nextId := 1 } 1).2.1 = { rows := [], nextId := 1 } ∧
    (update_user { rows := [], nextId := 1 } 1 aliceInput).1 =
      Except.error { status_code := 404, detail := "User tidak ditemukan.",
                     headers := [] } ∧
    (update_user { rows := [], nextId := 1 } 1 aliceInput).2.1 =
      { rows := [], nextId := 1 } :=
  not_found_404 { rows := [], nextId := 1 } 1 aliceInput rfl

/-- A session log is well scoped: it starts by opening one session — the only
open it ever does — and has closed it by its last event. -/
def sessionScoped (log : List SessionEvent) : Prop :=
  log.head? = some SessionEvent.opened ∧
  log.getLast? = some SessionEvent.closed ∧
  List.count SessionEvent.opened log = 1

/-- C9: every store-touching endpoint opens exactly one session of its own at
the start of the call and has released it by every exit path, succeeding or
failing; no session outlives its operation. -/
theorem session_per_operation (st : Store) (user : UserLogin) (now : Int)
    (iu : InputUser) (salt : Nat) (user_id : Nat) :
    sessionScoped (login st user now).2 ∧
    sessionScoped (create_user st iu salt).2.2 ∧
    sessionScoped (daftar_user st).2 ∧
    sessionScoped (get_users st user_id).2 ∧
    sessionScoped (delete_user st user_id).2.2 ∧
    sessionScoped (update_user st user_id iu).2.2 := by
  refine ⟨⟨rfl, rfl, rfl⟩, ?_, ⟨rfl, rfl, rfl⟩, ?_, ?_, ?_⟩
  · cases hg : get_user st iu.username with
    | some u => rw [create_user_dup hg]; exact ⟨rfl, rfl, rfl⟩
    | none => rw [create_user_new hg]; exact ⟨rfl, rfl, rfl⟩
  · unfold get_users
    cases hg : getUserById st user_id <;> exact ⟨rfl, rfl, rfl⟩
  · unfold delete_user
    cases hg : getUserById st user_id <;> exact ⟨rfl, rfl, rfl⟩
  · cases hg : getUserById st user_id with
    | some u => rw [update_user_found hg]; exact ⟨rfl, rfl, rfl⟩
    | none => rw [update_user_missing hg]; exact ⟨rfl, rfl, rfl⟩

/-- C10: an update whose body omits the optional jenis_kelamin and tanggal_lahir
(pydantic v1 supplies none for them) clears those fields of the stored row to
none, whatever they held before. -/
theorem update_clears_optional_fields (st : Store) (user_id : Nat)
    (iu : InputUser) (hinv : Invariant st) (hjk : iu.jenis_kelamin = none)
    (htl : iu.tanggal_lahir = none) (eu : User)
    (hfound : getUserById st user_id = some eu) :
    getUserById (update_user st user_id iu).2.1 user_id =
      some (mutateRecord iu eu) ∧
    (mutateRecord iu eu).jenis_kelamin = none ∧
    (mutateRecord iu eu).tanggal_lahir = none := by
  refine ⟨?_, by simp [mutateRecord, hjk], by simp [mutateRecord, htl]⟩
  have hrows := update_user_rows_eq st user_id iu hinv
  unfold getUserById
  rw [hrows, List.find?_map]
  have hpf : ((fun u : User => u.id == user_id) ∘
      (fun u => if u.id == user_id then mutateRecord iu u else u)) =
      (fun u : User => u.id == user_id) := by
    funext u
    by_cases he : (u.id == user_id) = true <;>
      simp [Function.comp, he, mutateRecord_id]
  rw [hpf]
  have hfind : List.find? (fun u : User => u.id == user_id) st.rows = some eu :=
    hfound
  rw [hfind]
  have heq : eu.id = user_id := getUserById_id hfound
  simp [heq]

/-- Witness for C10: bob's stored gender and birth date are both set; updating
him with a body that omits them leaves both cleared to none. -/
theorem update_clears_optional_fields_witness :
    getUserById (update_user oneUserStore 1 clearingInput).2.1 1 =
      some (mutateRecord clearingInput bobRow) ∧
    (mutateRecord clearingInput bobRow).jenis_kelamin = none ∧
    (mutateRecord clearingInput bobRow).tanggal_lahir = none :=
  update_clears_optional_fields oneUserStore 1 clearingInput (by decide)
    rfl rfl bobRow rfl

end FastAPIApp
